import Mathlib

/-!
Verification of the viam-ultrasonic-adafruit module against its design
specification.  The repository exposes an HC-SR04 ultrasonic distance sensor
as a sensor resource: configuration validation, pin handling, driver
construction, a unit-converting read operation, and a background poller
lifecycle.  Python integers and floats are modelled as Nat / Rat, Python
dictionaries produced by struct_to_dict as association lists of a JValue
type, and raised exceptions as an Except error channel with an explicit
exception type.
-/

instance {ε α : Type} [DecidableEq ε] [DecidableEq α] : DecidableEq (Except ε α) :=
  fun x y =>
    match x, y with
    | .ok a, .ok b => if h : a = b then isTrue (by rw [h]) else isFalse (by simp [h])
    | .error a, .error b => if h : a = b then isTrue (by rw [h]) else isFalse (by simp [h])
    | .ok _, .error _ => isFalse (by simp)
    | .error _, .ok _ => isFalse (by simp)

/-- Whether an Except value is a success (a call that did not raise). -/
def exceptOk {ε α : Type} : Except ε α → Bool
  | .ok _ => true
  | .error _ => false

/-- The dynamic value type produced by struct_to_dict from a protobuf
Struct attribute map: strings, numbers (all protobuf numbers arrive as
floats, modelled as Rat), booleans, null. -/
inductive JValue where
  | str (s : String)
  | num (x : ℚ)
  | bool (b : Bool)
  | null
deriving DecidableEq

/-- An attribute dictionary: association list from attribute name to value,
first binding wins (Python dict keys are unique). -/
def Attrs : Type := List (String × JValue)

/-- Dictionary lookup, modelling attrs.get(key) / key in attrs. -/
def getAttr (attrs : Attrs) (k : String) : Option JValue :=
  (List.find? (fun p => p.1 == k) attrs).map (fun p => p.2)

/-- Python exception kinds relevant to this module. -/
inductive PyExc where
  | valueError
  | attributeError
  | runtimeError
  | typeError
deriving DecidableEq

/-- Modelled from the spec: the fixed PhysicalToBCM table of the pin
resolver.  The resolver itself is part of this repository but its file is
not under src (only the reconfigure caller site is), so the table is
reconstructed from the data-model section of the specification: a fixed
mapping from physical 40-pin-header pin numbers (as decimal strings) to
BCM GPIO numbers, a total and exact match to the target board header
layout with the power, ground and reserved ID-EEPROM positions absent
(26 entries), fixing in particular key "16" to BCM 23 and key "18" to
BCM 24. -/
def physicalToBCM : List (String × Nat) :=
  [("3", 2), ("5", 3), ("7", 4), ("8", 14), ("10", 15), ("11", 17),
   ("12", 18), ("13", 27), ("15", 22), ("16", 23), ("18", 24), ("19", 10),
   ("21", 9), ("22", 25), ("23", 11), ("24", 8), ("26", 7), ("29", 5),
   ("31", 6), ("32", 12), ("33", 13), ("35", 19), ("36", 16), ("37", 26),
   ("38", 20), ("40", 21)]

/-- Exact-key lookup in the PhysicalToBCM table. -/
def lookupPhysical (s : String) : Option Nat :=
  (List.find? (fun p => p.1 == s) physicalToBCM).map (fun p => p.2)

/-- Modelled from the spec: the set of pin handles the external platform
board module actually exposes for this target (named handles D0 through
D27); the resolver and the reflective getattr lookup both check candidate
names against this namespace. -/
def boardHandles : List String :=
  (List.range 28).map (fun n => "D" ++ toString n)

/-- The two failure kinds of the pin resolver. -/
inductive PinError where
  | invalidPinFormat (s : String)
  | unsupportedPin (candidate : String)
deriving DecidableEq

/-- A nonempty string of decimal digits (Python str.isdigit on ASCII). -/
def digitsOnly (cs : List Char) : Bool :=
  !cs.isEmpty && cs.all (fun c => c.isDigit)

/-- Modelled from the spec: the ordered candidate-producing branches of
the pin resolver, first match wins: (1) exact PhysicalToBCM key, (2) "D"
followed by digits used verbatim, (3) "GPIO" followed by digits
reinterpreted as a BCM number, (4) bare decimal digits reinterpreted as a
BCM number; otherwise no candidate. -/
def candidateOf (s : String) : Option String :=
  match lookupPhysical s with
  | some n => some ("D" ++ toString n)
  | none =>
    match s.data with
    | 'D' :: rest =>
      if digitsOnly rest then some s else none
    | 'G' :: 'P' :: 'I' :: 'O' :: rest =>
      if digitsOnly rest then some (String.mk ('D' :: rest)) else none
    | cs =>
      if digitsOnly cs then some (String.mk ('D' :: cs)) else none

/-- Modelled from the spec: the full pin resolver.  Produce a candidate
via the ordered branches; fail with invalidPinFormat when no branch
matches, confirm membership of the candidate in the platform handle
namespace and fail with unsupportedPin otherwise. -/
def resolve (s : String) : Except PinError String :=
  match candidateOf s with
  | none => .error (.invalidPinFormat s)
  | some c =>
    if boardHandles.contains c then .ok c else .error (.unsupportedPin c)

/-- Python truthiness, as used by bool(x) on a struct_to_dict value. -/
def truthy : JValue → Bool
  | .str s => !(s == "")
  | .num x => !(x == 0)
  | .bool b => b
  | .null => false

/-- Python str(x) on an optional struct_to_dict value, as applied by
reconfigure to attrs.get results (a missing key yields the string
rendering of None). -/
def pyStr : Option JValue → String
  | none => "None"
  | some (.str s) => s
  | some (.bool true) => "True"
  | some (.bool false) => "False"
  | some .null => "None"
  | some (.num x) => toString x

/-- Python float(x) on a struct_to_dict value: numbers pass through,
booleans coerce to 0 or 1, numeric strings parse (only untyped digit
strings are needed here), anything else raises. -/
def pyFloat : JValue → Except PyExc ℚ
  | .num x => .ok x
  | .bool b => .ok (if b then 1 else 0)
  | .str s =>
    if digitsOnly s.data then .ok ((s.toNat?).getD 0 : ℕ) else .error .valueError
  | .null => .error .typeError

/-- validate_config from src/src/main.py: the required_dependencies loop
runs first and demands a string "board" attribute, appending its value to
the implicit dependencies; the required_attributes loop then demands
string "echo_interrupt_pin" and "trigger_pin" attributes, in that order;
any absent or non-string field raises ValueError with the field name. -/
def validate_config (attrs : Attrs) : Except String (List String) :=
  match getAttr attrs "board" with
  | some (.str b) =>
    match getAttr attrs "echo_interrupt_pin" with
    | some (.str _) =>
      match getAttr attrs "trigger_pin" with
      | some (.str _) => .ok [b]
      | _ => .error "trigger_pin is required and must be a string"
    | _ => .error "echo_interrupt_pin is required and must be a string"
  | _ => .error "board is required and must be a string"

/-- Whether an optional attribute value is a string (isinstance(x, str)
on a present key). -/
def isStrAttr : Option JValue → Bool
  | some (.str _) => true
  | _ => false

/-- The constructed HCSR04 driver adapter: the two pin handles and the
timeout in seconds passed to its constructor. -/
structure Driver where
  trigger : String
  echo : String
  timeout : ℚ
deriving DecidableEq

/-- The observable outcome of one reconfigure call: the raised exception
or the constructed driver, together with the auto_start field after the
call and whether start() was invoked during the call. -/
structure ReconfigOutcome where
  result : Except PyExc Driver
  autoStart : Bool
  started : Bool
deriving DecidableEq

/-- The class-level initial value of the auto_start field, line 27 of
src/src/main.py. -/
def initAutoStart : Bool := true

/-- Line 107 of src/src/main.py: the new auto_start field is
bool(attrs.get("auto_start", self.auto_start)), so the truthiness of the
attribute when present and otherwise the previous (already boolean)
field value. -/
def reconfAutoStart (attrs : Attrs) (prev : Bool) : Bool :=
  match getAttr attrs "auto_start" with
  | some v => truthy v
  | none => prev

/-- Line 124 of src/src/main.py: float(attrs.get("timeout_ms", 1000)),
the driver timeout in milliseconds before division by 1000. -/
def reconfTimeout (attrs : Attrs) : Except PyExc ℚ :=
  match getAttr attrs "timeout_ms" with
  | some v => pyFloat v
  | none => .ok 1000

/-- Lines 116 to 125 of src/src/main.py after the board check: the
trigger and echo pin strings (str of attrs.get) are used verbatim as
attribute names of the platform board module; getattr raises
AttributeError when the name is outside the module namespace; otherwise
the driver is constructed with the two looked-up handles and
timeout_ms / 1000 seconds.  No exception is caught. -/
def reconfDriver (attrs : Attrs) : Except PyExc Driver :=
  let trig := pyStr (getAttr attrs "trigger_pin")
  let echo := pyStr (getAttr attrs "echo_interrupt_pin")
  if !(boardHandles.contains trig) then .error .attributeError
  else if !(boardHandles.contains echo) then .error .attributeError
  else
    match reconfTimeout attrs with
    | .error e => .error e
    | .ok tms => .ok { trigger := trig, echo := echo, timeout := tms / 1000 }

/-- reconfigure from src/src/main.py, lines 106 to 127, over an attribute
dictionary, the dependency mapping (modelled by which board resource
names it resolves) and the previous auto_start field of the instance.
In source order: auto_start is reassigned first; the board dependency is
looked up and ValueError raised when it is absent (start is then never
reached); otherwise start() is invoked exactly when auto_start holds,
before the pin lookups, so started is recorded even when a later pin
lookup raises; the pin lookups and driver construction then produce the
result.  No exception is caught anywhere in the method. -/
def reconfigure (attrs : Attrs) (deps : String → Bool) (prevAutoStart : Bool) :
    ReconfigOutcome :=
  let a := reconfAutoStart attrs prevAutoStart
  if !(deps (pyStr (getAttr attrs "board"))) then
    { result := .error .valueError, autoStart := a, started := false }
  else
    { result := reconfDriver attrs, autoStart := a, started := a }

/-- get_readings from src/src/main.py: reads the driver distance (in cm,
its outcome modelled as an Except value), divides by 100 and returns the
map from "distance" to the result in meters; a RuntimeError from the
driver is caught, a warning logged (second component) and the sentinel
-1.0 returned; any other exception propagates. -/
def get_readings (sonarDistance : Except PyExc ℚ) :
    Except PyExc (List (String × ℚ)) × Bool :=
  match sonarDistance with
  | .ok d => (.ok [("distance", d / 100)], false)
  | .error .runtimeError => (.ok [("distance", -1)], true)
  | .error e => (.error e, false)

/-- Modelled from the spec: the external driver adapter fails a read only
by its echo timeout, which the adafruit driver raises as RuntimeError. -/
def driverReadFailure (e : PyExc) : Prop := e = .runtimeError

/-- Status of the background asyncio task. -/
inductive TaskStatus where
  | running
  | finished
deriving DecidableEq

/-- The poller state of the component: the optional background task and
the stop event flag. -/
structure PollerState where
  task : Option TaskStatus
  eventSet : Bool
deriving DecidableEq

/-- Initial class-level state: task is None, event unset. -/
def initPoller : PollerState := { task := none, eventSet := false }

/-- start from src/src/main.py: when no task exists or the prior one is
done, clear the event and create a new running task (second component
true); otherwise do nothing. -/
def startPoller (s : PollerState) : PollerState × Bool :=
  match s.task with
  | none => ({ task := some .running, eventSet := false }, true)
  | some .finished => ({ task := some .running, eventSet := false }, true)
  | some .running => (s, false)

/-- stop from src/src/main.py: set the event unconditionally, then cancel
the task only when one is present (second component reports whether
cancel was invoked).  Guarded attribute access never raises, so the
result is always ok. -/
def stopPoller (s : PollerState) : Except PyExc (PollerState × Bool) :=
  let s1 : PollerState := { s with eventSet := true }
  match s1.task with
  | none => .ok (s1, false)
  | some _ => .ok ({ s1 with task := some .finished }, true)

/-- Helper: an optional attribute value is a string exactly when it is
some (.str s). -/
theorem isStrAttr_iff (o : Option JValue) :
    isStrAttr o = true ↔ ∃ s, o = some (.str s) := by
  cases o with
  | none => simp [isStrAttr]
  | some v => cases v <;> simp [isStrAttr]

/-- C1: for the lexically overlapping input "16", resolution uses the
fixed physical-pin-to-BCM table (yielding handle "D23"), not the
bare-BCM reading (which would yield "D16"); and for every input string
that is a key of the table, the candidate comes from the table entry,
so the physical-table branch is checked before the bare-digits branch. -/
theorem resolve_physical_table_priority :
    resolve "16" = .ok "D23" ∧
    resolve "16" ≠ .ok "D16" ∧
    ∀ s n, lookupPhysical s = some n →
      candidateOf s = some ("D" ++ toString n) := by
  refine ⟨by decide, by decide, ?_⟩
  intro s n h
  unfold candidateOf
  rw [h]

/-- Witness for C1: instantiated at the table key "18", BCM 24. -/
theorem resolve_physical_table_priority_witness :
    candidateOf "18" = some ("D" ++ toString 24) :=
  resolve_physical_table_priority.2.2 "18" 24 (by decide)

/-- C2 counterexample: the input "23" is itself a key of the
physical-pin table (physical header pin 23 carries BCM GPIO 11), so
resolution returns D11 by the priority ordering, not D23 as the claim
states for bare-digit input. -/
theorem resolve_bare_23_counterexample :
    resolve "23" ≠ .ok "D23" ∧
    resolve "23" = .ok "D11" ∧
    lookupPhysical "23" = some 11 := by
  exact ⟨by decide, by decide, by decide⟩

/-- C2 amended: resolution accepts all four notations and normalizes to a
D-prefixed handle: "D23" is used verbatim, "GPIO23" yields "D23", and a
bare-digit string that is not a physical-table key, such as "2", yields
its D-prefixed form "D2"; the bare-digit string "23" is a table key and
therefore yields "D11". -/
theorem resolve_notation_normalization :
    resolve "D23" = .ok "D23" ∧
    resolve "GPIO23" = .ok "D23" ∧
    resolve "2" = .ok "D2" ∧
    resolve "23" = .ok "D11" := by
  exact ⟨by decide, by decide, by decide, by decide⟩

/-- C3: resolution distinguishes its two failure kinds: inputs matching
no notation ("abc", "GPIOxx") fail with invalidPinFormat, a well-formed
candidate absent from the board ("D999") fails with unsupportedPin, and
every successful resolution returns a candidate that is a member of the
platform pin-handle namespace. -/
theorem resolve_failure_kinds :
    resolve "abc" = .error (.invalidPinFormat "abc") ∧
    resolve "GPIOxx" = .error (.invalidPinFormat "GPIOxx") ∧
    resolve "D999" = .error (.unsupportedPin "D999") ∧
    ∀ s c, resolve s = .ok c → boardHandles.contains c = true := by
  refine ⟨by decide, by decide, by decide, ?_⟩
  intro s c h
  unfold resolve at h
  cases hc : candidateOf s with
  | none => rw [hc] at h; exact absurd h (by simp)
  | some c0 =>
    rw [hc] at h
    dsimp only at h
    by_cases hb : boardHandles.contains c0 = true
    · rw [if_pos hb] at h
      cases h
      exact hb
    · rw [if_neg hb] at h
      exact absurd h (by simp)

/-- Witness for C3: instantiated at input "D5", which resolves to the
board member "D5". -/
theorem resolve_failure_kinds_witness :
    boardHandles.contains "D5" = true :=
  resolve_failure_kinds.2.2.2 "D5" "D5" (by decide)

/-- C5: every failure of the driver adapter during a read (its echo
timeout, raised as RuntimeError) is caught: get_readings returns the
sentinel map from "distance" to -1.0 and logs a warning, and no
exception reaches the caller. -/
theorem get_readings_driver_failure (e : PyExc) (h : driverReadFailure e) :
    get_readings (.error e) = (.ok [("distance", -1)], true) := by
  cases h
  rfl

/-- Witness for C5: instantiated at the RuntimeError the driver raises
on timeout. -/
theorem get_readings_driver_failure_witness :
    get_readings (.error .runtimeError) = (.ok [("distance", -1)], true) :=
  get_readings_driver_failure .runtimeError rfl

/-- C6: every successful adapter reading of d centimeters yields the map
from "distance" to d / 100 meters, no warning logged; in particular
150.0 cm yields 1.5 m. -/
theorem get_readings_cm_to_m :
    (∀ d : ℚ, get_readings (.ok d) = (.ok [("distance", d / 100)], false)) ∧
    get_readings (.ok 150) = (.ok [("distance", 1.5)], false) := by
  constructor
  · intro d
    rfl
  · norm_num [get_readings]

/-- Witness for C6: instantiated at a 200 cm reading. -/
theorem get_readings_cm_to_m_witness :
    get_readings (.ok 200) = (.ok [("distance", (200 : ℚ) / 100)], false) :=
  get_readings_cm_to_m.1 200

/-- C4: validate_config raises whenever any of the required string
fields board, echo_interrupt_pin or trigger_pin is absent or not a
string, and otherwise returns exactly the singleton list of implicit
dependencies holding the configured board resource name. -/
theorem validate_config_spec (attrs : Attrs) :
    ((isStrAttr (getAttr attrs "board") = false ∨
      isStrAttr (getAttr attrs "echo_interrupt_pin") = false ∨
      isStrAttr (getAttr attrs "trigger_pin") = false) →
      ∃ msg, validate_config attrs = .error msg) ∧
    ∀ b, getAttr attrs "board" = some (.str b) →
      isStrAttr (getAttr attrs "echo_interrupt_pin") = true →
      isStrAttr (getAttr attrs "trigger_pin") = true →
      validate_config attrs = .ok [b] := by
  constructor
  · intro h
    unfold validate_config
    split
    next b hb =>
      split
      next e he =>
        split
        next t ht =>
          rw [hb, he, ht] at h
          simp [isStrAttr] at h
        next => exact ⟨_, rfl⟩
      next => exact ⟨_, rfl⟩
    next => exact ⟨_, rfl⟩
  · intro b hb he ht
    obtain ⟨e, he2⟩ := (isStrAttr_iff _).1 he
    obtain ⟨t, ht2⟩ := (isStrAttr_iff _).1 ht
    unfold validate_config
    rw [hb, he2, ht2]

/-- Witness for C4: a configuration with all three string fields
validates to the board name list. -/
theorem validate_config_spec_witness :
    validate_config [("board", .str "b1"), ("echo_interrupt_pin", .str "18"),
      ("trigger_pin", .str "16")] = .ok ["b1"] :=
  (validate_config_spec [("board", .str "b1"), ("echo_interrupt_pin", .str "18"),
      ("trigger_pin", .str "16")]).2 "b1" (by decide) (by decide) (by decide)

/-- C7 counterexample: configuring with trigger_pin 16, echo pin 18 and
timeout_ms 500 does not construct a driver bound to D23 and D24: the
reconfigure code passes the raw string "16" to getattr on the board
module, which exposes no such attribute, so AttributeError is raised
instead of the physical pin resolving to D23. -/
theorem reconfigure_physical_pin_counterexample :
    (reconfigure [("board", .str "board-1"), ("trigger_pin", .str "16"),
      ("echo_interrupt_pin", .str "18"), ("timeout_ms", .num 500)]
      (fun s => s == "board-1") true).result = .error .attributeError := by decide

/-- C7 amended: the driver timeout equals timeout_ms / 1000 seconds,
with timeout_ms defaulting to 1000 when absent (giving one second), and
the configured pin strings are passed to the driver verbatim, so a
configuration naming the handles D23 and D24 with timeout_ms 500
constructs the driver with D23, D24 and one half second, while the
physical-pin string 16 is not translated but fails. -/
theorem reconfigure_driver_construction :
    ((reconfigure [("board", .str "board-1"), ("trigger_pin", .str "D23"),
      ("echo_interrupt_pin", .str "D24"), ("timeout_ms", .num 500)]
      (fun s => s == "board-1") true).result =
      .ok { trigger := "D23", echo := "D24", timeout := 1/2 }) ∧
    (∀ attrs deps prev d tms, getAttr attrs "timeout_ms" = some (.num tms) →
      (reconfigure attrs deps prev).result = .ok d →
      d.timeout = tms / 1000 ∧
        d.trigger = pyStr (getAttr attrs "trigger_pin") ∧
        d.echo = pyStr (getAttr attrs "echo_interrupt_pin")) ∧
    (∀ attrs deps prev d, getAttr attrs "timeout_ms" = none →
      (reconfigure attrs deps prev).result = .ok d → d.timeout = 1) := by
  refine ⟨?_, ?_, ?_⟩
  · have h : (reconfigure [("board", .str "board-1"), ("trigger_pin", .str "D23"),
        ("echo_interrupt_pin", .str "D24"), ("timeout_ms", .num 500)]
        (fun s => s == "board-1") true).result =
        .ok { trigger := "D23", echo := "D24", timeout := (500 : ℚ)/1000 } := rfl
    rw [h]
    norm_num
  · intro attrs deps prev d tms htm hres
    unfold reconfigure at hres
    cases hb : deps (pyStr (getAttr attrs "board")) with
    | false => rw [hb] at hres; simp at hres
    | true =>
      rw [hb] at hres
      simp only [Bool.not_true, Bool.false_eq_true, if_false] at hres
      unfold reconfDriver reconfTimeout at hres
      rw [htm] at hres
      dsimp only at hres
      cases h1 : boardHandles.contains (pyStr (getAttr attrs "trigger_pin")) with
      | false => rw [h1] at hres; simp at hres
      | true =>
        cases h2 : boardHandles.contains (pyStr (getAttr attrs "echo_interrupt_pin")) with
        | false => rw [h1, h2] at hres; simp at hres
        | true =>
          rw [h1, h2] at hres
          simp only [Bool.not_true, Bool.false_eq_true, if_false, pyFloat,
            Except.ok.injEq] at hres
          subst hres
          exact ⟨rfl, rfl, rfl⟩
  · intro attrs deps prev d htm hres
    unfold reconfigure at hres
    cases hb : deps (pyStr (getAttr attrs "board")) with
    | false => rw [hb] at hres; simp at hres
    | true =>
      rw [hb] at hres
      simp only [Bool.not_true, Bool.false_eq_true, if_false] at hres
      unfold reconfDriver reconfTimeout at hres
      rw [htm] at hres
      dsimp only at hres
      cases h1 : boardHandles.contains (pyStr (getAttr attrs "trigger_pin")) with
      | false => rw [h1] at hres; simp at hres
      | true =>
        cases h2 : boardHandles.contains (pyStr (getAttr attrs "echo_interrupt_pin")) with
        | false => rw [h1, h2] at hres; simp at hres
        | true =>
          rw [h1, h2] at hres
          simp only [Bool.not_true, Bool.false_eq_true, if_false,
            Except.ok.injEq] at hres
          subst hres
          norm_num

/-- Witness for C7: instantiated at a configuration naming handles D5
and D6 with timeout_ms 2000. -/
theorem reconfigure_driver_construction_witness :
    (Driver.mk "D5" "D6" ((2000 : ℚ) / 1000)).timeout = (2000 : ℚ) / 1000 ∧
    (Driver.mk "D5" "D6" ((2000 : ℚ) / 1000)).trigger =
      pyStr (getAttr [("board", .str "b"), ("trigger_pin", .str "D5"),
        ("echo_interrupt_pin", .str "D6"), ("timeout_ms", .num 2000)] "trigger_pin") ∧
    (Driver.mk "D5" "D6" ((2000 : ℚ) / 1000)).echo =
      pyStr (getAttr [("board", .str "b"), ("trigger_pin", .str "D5"),
        ("echo_interrupt_pin", .str "D6"), ("timeout_ms", .num 2000)] "echo_interrupt_pin") :=
  reconfigure_driver_construction.2.1
    [("board", .str "b"), ("trigger_pin", .str "D5"),
      ("echo_interrupt_pin", .str "D6"), ("timeout_ms", .num 2000)]
    (fun s => s == "b") true (Driver.mk "D5" "D6" ((2000 : ℚ) / 1000)) 2000 rfl rfl

/-- C8: stop never raises, whatever the state; stop before any start
(the initial state, task None) invokes no cancellation; stop twice in a
row is safe; stop on any state with no task invokes no cancellation and
only sets the event; start is idempotent: with a running task it changes
nothing and creates no second loop, and it creates a new running task
exactly when no task exists or the prior one finished. -/
theorem poller_lifecycle :
    (∀ s, exceptOk (stopPoller s) = true) ∧
    stopPoller initPoller = .ok ({ task := none, eventSet := true }, false) ∧
    (∀ s s1 c1, stopPoller s = .ok (s1, c1) → exceptOk (stopPoller s1) = true) ∧
    (∀ s, s.task = none →
      stopPoller s = .ok ({ task := none, eventSet := true }, false)) ∧
    (∀ s, s.task = some .running → startPoller s = (s, false)) ∧
    (∀ s, s.task = none ∨ s.task = some .finished →
      (startPoller s).1.task = some .running ∧ (startPoller s).2 = true) := by
  have hAll : ∀ s, exceptOk (stopPoller s) = true := by
    intro s
    obtain ⟨t, e⟩ := s
    cases t with
    | none => rfl
    | some st => rfl
  refine ⟨hAll, by decide, fun s s1 c1 _ => hAll s1, ?_, ?_, ?_⟩
  · intro s h
    obtain ⟨t, e⟩ := s
    cases h
    rfl
  · intro s h
    obtain ⟨t, e⟩ := s
    cases h
    rfl
  · intro s h
    obtain ⟨t, e⟩ := s
    rcases h with h | h <;> cases h <;> exact ⟨rfl, rfl⟩

/-- Witness for C8: stop after a stop from the initial state is safe. -/
theorem poller_lifecycle_witness :
    exceptOk (stopPoller { task := none, eventSet := true }) = true :=
  poller_lifecycle.2.2.1 initPoller { task := none, eventSet := true } false (by decide)

/-- C9 counterexample: with the board dependency present, a trigger_pin
string that is not an attribute of the board module makes reconfigure
raise AttributeError to the caller; the configuration failure is not
caught and logged as the claim states. -/
theorem reconfigure_pin_failure_counterexample :
    (reconfigure [("board", .str "b2"), ("trigger_pin", .str "abc"),
      ("echo_interrupt_pin", .str "D24")] (fun s => s == "b2") true).result =
      .error .attributeError := by decide

/-- C9 amended: a missing board dependency makes reconfigure raise
ValueError to the caller, and every other configuration failure also
propagates: a pin string outside the board module namespace raises
AttributeError; nothing in reconfigure is caught or logged, the
component is simply left without a new driver when the call raises. -/
theorem reconfigure_error_propagation (attrs : Attrs) (deps : String → Bool)
    (prev : Bool) :
    (deps (pyStr (getAttr attrs "board")) = false →
      (reconfigure attrs deps prev).result = .error .valueError) ∧
    (deps (pyStr (getAttr attrs "board")) = true →
      boardHandles.contains (pyStr (getAttr attrs "trigger_pin")) = false →
      (reconfigure attrs deps prev).result = .error .attributeError) := by
  constructor
  · intro hb
    unfold reconfigure
    rw [hb]
    rfl
  · intro hb ht
    unfold reconfigure
    rw [hb]
    dsimp only
    unfold reconfDriver
    dsimp only
    rw [ht]
    rfl

/-- Witness for C9: a configuration whose board dependency resolves to
nothing raises ValueError. -/
theorem reconfigure_error_propagation_witness :
    (reconfigure [("trigger_pin", .str "D23")] (fun _ => false) true).result =
      .error .valueError :=
  (reconfigure_error_propagation [("trigger_pin", .str "D23")]
    (fun _ => false) true).1 rfl

/-- C10: the class-level initial auto_start value is true; when the
auto_start attribute is absent from a reconfiguration, the field keeps
the value left by the previous reconfiguration instead of resetting to
the documented default true; and start is invoked during reconfigure
exactly when the board dependency is found and this retained value is
true. -/
theorem auto_start_retained (attrs : Attrs) (deps : String → Bool) (prev : Bool)
    (h : getAttr attrs "auto_start" = none) :
    initAutoStart = true ∧
    (reconfigure attrs deps prev).autoStart = prev ∧
    (reconfigure attrs deps prev).started =
      (deps (pyStr (getAttr attrs "board")) && prev) := by
  have ha : reconfAutoStart attrs prev = prev := by
    unfold reconfAutoStart
    rw [h]
  refine ⟨rfl, ?_, ?_⟩ <;>
    (unfold reconfigure
     cases hb : deps (pyStr (getAttr attrs "board")) with
     | false => simp [ha]
     | true => simp [ha])

/-- Witness for C10: a reconfiguration without the auto_start attribute
keeps a previously stored false instead of the default true. -/
theorem auto_start_retained_witness :
    (reconfigure [("board", .str "b")] (fun s => s == "b") false).autoStart = false :=
  (auto_start_retained [("board", .str "b")] (fun s => s == "b") false rfl).2.1
